import Mathlib

/-!
Verification of the adaptive market-feed alert bot
(src/dhan_websocket_alert_bot.py) against its natural-language
specification.  The Python program is shallowly embedded: inbound events
become a `PyVal` datatype with Python truthiness, the normalizer
`market_feed_handler`, the throttled notifier `send_telegram_message`,
the constructor negotiation, the run-method probing and the supervisor
loop of `start_market_feed` become executable Lean functions, with the
external library's responses supplied as explicit behaviour values.
-/

namespace DhanBot

/-- Python-like runtime values, as far as the message handler inspects
them: `None`, strings, numbers (modelled as rationals), booleans,
dict-like mappings and attribute-bearing objects.  A text message whose
JSON decoding succeeds is presented as the decoded value; one whose
decoding fails stays a `str` (which has no keys and no attributes). -/
inductive PyVal : Type
  | none
  | str (s : String)
  | num (q : ℚ)
  | bool (b : Bool)
  | dict (entries : List (String × PyVal))
  | obj (attrs : List (String × PyVal))

/-- Python truthiness: `None`, `""`, `0`, `False` and `{}` are falsy. -/
def truthy : PyVal → Bool
  | .none => false
  | .str s => !s.isEmpty
  | .num q => !(decide (q = 0))
  | .bool b => b
  | .dict es => !es.isEmpty
  | .obj _ => true

/-- First binding of a key in an association list, `PyVal.none` when
absent (the default of Python's `dict.get`). -/
def assocGet : List (String × PyVal) → String → PyVal
  | [], _ => .none
  | (k1, v) :: rest, k => if k1 == k then v else assocGet rest k

/-- `message.get(k)`: association lookup on dicts, `None` otherwise. -/
def pyGet : PyVal → String → PyVal
  | .dict es, k => assocGet es k
  | _, _ => .none

/-- Attribute lookup on objects. -/
def attrGet : List (String × PyVal) → String → Option PyVal
  | [], _ => Option.none
  | (k1, v) :: rest, k => if k1 == k then some v else attrGet rest k

/-- `hasattr(message, k)`. -/
def hasattr (m : PyVal) (k : String) : Bool :=
  match m with
  | .obj as => (attrGet as k).isSome
  | _ => false

/-- `getattr(message, k, None)`. -/
def pyGetattr (m : PyVal) (k : String) : PyVal :=
  match m with
  | .obj as =>
    match attrGet as k with
    | some v => v
    | Option.none => .none
  | _ => .none

/-- Python's `a or b`: the first operand if truthy, otherwise the second
operand unchecked. -/
def pyOr (a b : PyVal) : PyVal := if truthy a then a else b

/-- `str(v)` as far as the handler exercises it (string and integral
identifiers; the remaining cases only need to be some fixed rendering). -/
def pyStr : PyVal → String
  | .str s => s
  | .num q => if q.den = 1 then toString q.num else toString q
  | .bool b => if b then "True" else "False"
  | .none => "None"
  | .dict _ => "dict"
  | .obj _ => "object"

/-- Decimal-string parsing, the fragment of Python's `float` the feed
exercises: optional sign, digits with an optional fractional part
(exponent, inf/nan forms and surrounding-whitespace stripping are not
modelled). -/
def parseFloat? (s : String) : Option ℚ :=
  let cs := s.toList
  let sgn : ℚ := match cs with
    | '-' :: _ => -1
    | _ => 1
  let body : List Char := match cs with
    | '-' :: r => r
    | '+' :: r => r
    | _ => cs
  match body.splitOn '.' with
  | [ip] =>
    if !ip.isEmpty && ip.all Char.isDigit then
      some (sgn * ((ip.foldl (fun a c => a * 10 + (c.toNat - 48)) 0 : ℕ) : ℚ))
    else Option.none
  | [ip, fp] =>
    if (!ip.isEmpty || !fp.isEmpty) && ip.all Char.isDigit && fp.all Char.isDigit then
      let ipv : ℕ := ip.foldl (fun a c => a * 10 + (c.toNat - 48)) 0
      let fpv : ℕ := fp.foldl (fun a c => a * 10 + (c.toNat - 48)) 0
      some (sgn * ((ipv : ℚ) + (fpv : ℚ) / ((10 : ℚ) ^ fp.length)))
    else Option.none
  | _ => Option.none

/-- `float(v)` with failure as `Option.none` (the handler turns a raised
coercion error into `ltp = None`). -/
def pyFloat? : PyVal → Option ℚ
  | .num q => some q
  | .bool b => some (if b then 1 else 0)
  | .str s => parseFloat? s
  | _ => Option.none

/-- The top-level field extraction of `market_feed_handler` (lines
183-192): key or-chains on dicts, `securityId`/`lastTradedPrice`
attribute probes on other objects. -/
def extract1 (m : PyVal) : PyVal × PyVal :=
  match m with
  | .dict _ =>
    (pyOr (pyGet m ("securityId"))
      (pyOr (pyGet m ("symbol")) (pyOr (pyGet m ("security_id")) (pyGet m ("s")))),
     pyOr (pyGet m ("lastTradedPrice"))
      (pyOr (pyGet m ("ltp")) (pyOr (pyGet m ("last_price")) (pyGet m ("last")))))
  | _ =>
    ((if hasattr m ("securityId") then pyGetattr m ("securityId") else PyVal.none),
     (if hasattr m ("lastTradedPrice") then pyGetattr m ("lastTradedPrice") else PyVal.none))

/-- The nested-field loop (lines 196-203): for each key, a nested dict is
inspected only while the identifier is still falsy, both fields are
reassigned from the nested dict, and the loop breaks once the identifier
is truthy. -/
def nestedScan : List String → PyVal → PyVal → PyVal → PyVal × PyVal
  | [], _, sid, ltp => (sid, ltp)
  | k :: ks, m, sid, ltp =>
    match pyGet m k with
    | .dict es =>
      if truthy sid then nestedScan ks m sid ltp
      else
        let nd := PyVal.dict es
        let sid1 := pyOr (pyGet nd ("securityId")) (pyGet nd ("symbol"))
        let ltp1 := pyOr (pyGet nd ("lastTradedPrice"))
          (pyOr (pyGet nd ("ltp")) (pyGet nd ("last_price")))
        if truthy sid1 then (sid1, ltp1) else nestedScan ks m sid1 ltp1
    | _ => nestedScan ks m sid ltp

/-- Field extraction including the nested fallback (lines 183-203). -/
def extractFields (m : PyVal) : PyVal × PyVal :=
  let p := extract1 m
  if truthy p.1 then p
  else
    match m with
    | .dict _ => nestedScan [("data"), ("payload"), ("tick"), ("update")] m p.1 p.2
    | _ => p

/-- The identifier after `if security_id: security_id = str(security_id)`
(lines 205-206). -/
def finalSid (m : PyVal) : PyVal :=
  if truthy (extractFields m).1 then PyVal.str (pyStr (extractFields m).1)
  else (extractFields m).1

/-- The price after the `is not None` guard and the `float` coercion with
error recovery (lines 208-213). -/
def finalLtp (m : PyVal) : Option ℚ :=
  match (extractFields m).2 with
  | PyVal.none => Option.none
  | v => pyFloat? v

/-- The message normalizer `market_feed_handler` (lines 164-223), as the
canonical tick it emits, if any: `some (securityId, ltp)` exactly when
the final `if security_id and ltp is not None` guard passes.  The
function is total, mirroring the enclosing catch-all exception handler:
no input propagates an exception to the streaming client's callback. -/
def market_feed_handler (m : PyVal) : Option (String × ℚ) :=
  if truthy (finalSid m) then
    match finalLtp m with
    | some q => some (pyStr (finalSid m), q)
    | Option.none => Option.none
  else Option.none

/-- Configuration of the throttled notifier: the per-instrument cooldown
`SEND_INTERVAL_SECONDS` and whether `TELEGRAM_BOT_TOKEN` and
`TELEGRAM_CHAT_ID` are both set. -/
structure NotifierCfg where
  interval : ℚ
  credsPresent : Bool
deriving DecidableEq

/-- The `_last_sent` map: per-security timestamp of the last recorded
send. -/
abbrev ThrottleState := List (String × ℚ)

/-- `_last_sent.get(security_id, 0)`. -/
def lookupD : ThrottleState → String → ℚ
  | [], _ => 0
  | (k1, v) :: rest, k => if k1 == k then v else lookupD rest k

/-- `_last_sent[security_id] = t`. -/
def setKey : ThrottleState → String → ℚ → ThrottleState
  | [], k, v => [(k, v)]
  | (k1, v1) :: rest, k, v =>
    if k1 == k then (k, v) :: rest else (k1, v1) :: setKey rest k v

/-- What one call of `send_telegram_message` did. -/
inductive SendOutcome : Type
  | throttled
  | noCreds
  | sentOk
  | sendFailed
deriving DecidableEq

/-- One call of `send_telegram_message` (lines 66-99).  `now` is the
clock reading taken at entry; `deliveryOk` is whether the HTTP POST
returned a 2xx response (a transport exception and a non-2xx response
behave identically here: both are logged and leave `_last_sent`
untouched).  The second `time.time()` at line 95 is modelled as the same
instant `now`.  Returns the new `_last_sent` state and the outcome. -/
def send_telegram_message (cfg : NotifierCfg) (st : ThrottleState)
    (sid : String) (now : ℚ) (deliveryOk : Bool) : ThrottleState × SendOutcome :=
  if now - lookupD st sid < cfg.interval then (st, SendOutcome.throttled)
  else if cfg.credsPresent = false then (st, SendOutcome.noCreds)
  else if deliveryOk then (setKey st sid now, SendOutcome.sentOk)
  else (st, SendOutcome.sendFailed)

/-- One canonical tick reaching the notifier, with its arrival time and
the delivery outcome the external endpoint would produce. -/
structure TickEvent where
  sid : String
  now : ℚ
  deliveryOk : Bool

/-- Fold a list of tick events through the notifier, collecting the
outcome of every call. -/
def runNotifier (cfg : NotifierCfg) :
    ThrottleState → List TickEvent → ThrottleState × List SendOutcome
  | st, [] => (st, [])
  | st, e :: es =>
    let r := send_telegram_message cfg st e.sid e.now e.deliveryOk
    let rest := runNotifier cfg r.1 es
    (rest.1, r.2 :: rest.2)

/-- The arrival times of the events for instrument `sid` whose call
actually delivered (outcome `sentOk`), in trace order. -/
def okTimes (cfg : NotifierCfg) : ThrottleState → String → List TickEvent → List ℚ
  | _, _, [] => []
  | st, sid, e :: es =>
    if e.sid = sid ∧ (send_telegram_message cfg st e.sid e.now e.deliveryOk).2 = SendOutcome.sentOk then
      e.now :: okTimes cfg (send_telegram_message cfg st e.sid e.now e.deliveryOk).1 sid es
    else
      okTimes cfg (send_telegram_message cfg st e.sid e.now e.deliveryOk).1 sid es

lemma lookupD_setKey_self (st : ThrottleState) (k : String) (v : ℚ) :
    lookupD (setKey st k v) k = v := by
  induction st with
  | nil => simp [setKey, lookupD]
  | cons p rest ih =>
    obtain ⟨k1, v1⟩ := p
    by_cases h : k1 == k
    · simp [setKey, lookupD, h]
    · simp [setKey, lookupD, h, ih]

lemma lookupD_setKey_ne (st : ThrottleState) (k1 k : String) (v : ℚ)
    (h : k1 ≠ k) : lookupD (setKey st k1 v) k = lookupD st k := by
  induction st with
  | nil => simp [setKey, lookupD, h]
  | cons p rest ih =>
    obtain ⟨k2, v2⟩ := p
    by_cases h2 : k2 == k1
    · have h3 : (k1 == k) = false := by simp [h]
      have h4 : (k2 == k) = false := by
        have : k2 = k1 := by simpa using h2
        simp [this, h]
      simp [setKey, lookupD, h2, h3, h4]
    · simp [setKey, lookupD, h2, ih]

/-- Characterization of one notifier step: on `sentOk` the state is the
updated map and the throttle guard held; on any other outcome the state
is unchanged. -/
lemma send_step_spec (cfg : NotifierCfg) (st : ThrottleState)
    (sid : String) (now : ℚ) (ok : Bool) :
    ((send_telegram_message cfg st sid now ok).2 = SendOutcome.sentOk →
      (send_telegram_message cfg st sid now ok).1 = setKey st sid now ∧
        lookupD st sid + cfg.interval ≤ now) ∧
    ((send_telegram_message cfg st sid now ok).2 ≠ SendOutcome.sentOk →
      (send_telegram_message cfg st sid now ok).1 = st) := by
  unfold send_telegram_message
  split_ifs with h1 h2 h3
  · exact ⟨fun h => by simp at h, fun _ => rfl⟩
  · exact ⟨fun h => by simp at h, fun _ => rfl⟩
  · refine ⟨fun _ => ⟨rfl, ?_⟩, fun h => absurd rfl h⟩
    have := not_lt.mp h1
    linarith
  · exact ⟨fun h => by simp at h, fun _ => rfl⟩

/-- Successful dispatch times for a fixed instrument, prefixed with the
recorded last-send time, always form a chain separated by the cooldown
interval. -/
lemma okTimes_chain (cfg : NotifierCfg) (sid : String) :
    ∀ (evs : List TickEvent) (st : ThrottleState),
      List.Chain' (fun a b : ℚ => a + cfg.interval ≤ b)
        (lookupD st sid :: okTimes cfg st sid evs) := by
  intro evs
  induction evs with
  | nil => intro st; simp [okTimes]
  | cons e es ih =>
    intro st
    by_cases h : e.sid = sid ∧
        (send_telegram_message cfg st e.sid e.now e.deliveryOk).2 = SendOutcome.sentOk
    · obtain ⟨h1, h2⟩ := h
      subst h1
      have hok := (send_step_spec cfg st e.sid e.now e.deliveryOk).1 h2
      have hlook : lookupD (send_telegram_message cfg st e.sid e.now e.deliveryOk).1 e.sid
          = e.now := by
        rw [hok.1, lookupD_setKey_self]
      have hchain := ih (send_telegram_message cfg st e.sid e.now e.deliveryOk).1
      rw [hlook] at hchain
      simp only [okTimes]
      rw [if_pos (by exact ⟨by trivial, h2⟩), List.chain'_cons]
      exact ⟨hok.2, hchain⟩
    · have hsame : lookupD (send_telegram_message cfg st e.sid e.now e.deliveryOk).1 sid
          = lookupD st sid := by
        by_cases hok : (send_telegram_message cfg st e.sid e.now e.deliveryOk).2 = SendOutcome.sentOk
        · have hne : e.sid ≠ sid := fun hs => h ⟨hs, hok⟩
          rw [((send_step_spec cfg st e.sid e.now e.deliveryOk).1 hok).1]
          exact lookupD_setKey_ne st e.sid sid e.now hne
        · rw [(send_step_spec cfg st e.sid e.now e.deliveryOk).2 hok]
      have hchain := ih (send_telegram_message cfg st e.sid e.now e.deliveryOk).1
      rw [hsame] at hchain
      simp only [okTimes]
      rw [if_neg h]
      exact hchain

/-- How one call into the external client behaves: it returns normally,
raises `TypeError` (a signature mismatch), or raises some other
exception. -/
inductive CallOutcome : Type
  | success
  | typeError
  | otherError
deriving DecidableEq

/-- The two constructor invocations the code can make (lines 261-268):
`FeedClass(CLIENT_ID, ACCESS_TOKEN, instruments, version="2.0")` and the
fallback `FeedClass(CLIENT_ID, ACCESS_TOKEN, instruments)`. -/
inductive CtorCall : Type
  | withVersion20
  | plain
deriving DecidableEq

/-- The version identifier a constructor call carries. -/
def versionOf : CtorCall → Option String
  | .withVersion20 => some ("2.0")
  | .plain => Option.none

/-- How the feed class responds to each constructor signature. -/
structure CtorBehavior where
  withVersion : CallOutcome
  noVersion : CallOutcome
deriving DecidableEq

/-- The constructor negotiation (lines 259-271): try the `version="2.0"`
signature; on `TypeError` retry without a version; any other exception
from either call is caught at line 269 and leaves `feed = None`.
Returns whether a feed instance was produced, and the list of
constructor calls made, in order. -/
def instantiateFeed (b : CtorBehavior) : Bool × List CtorCall :=
  match b.withVersion with
  | .success => (true, [CtorCall.withVersion20])
  | .otherError => (false, [CtorCall.withVersion20])
  | .typeError =>
    match b.noVersion with
    | .success => (true, [CtorCall.withVersion20, CtorCall.plain])
    | _ => (false, [CtorCall.withVersion20, CtorCall.plain])

/-- The run-style calls the prober can make (lines 297-341), in the
code's fixed order. -/
inductive ProbeCall : Type
  | rfPos
  | rfOnMessage
  | rfCallback
  | runOnMessage
  | runPos
  | startPos
  | startOnMessage
  | connectListen
deriving DecidableEq

/-- Which run-style methods the feed instance exposes and how each
calling convention behaves when invoked. -/
structure RunBehavior where
  hasRunForever : Bool
  rfPos : CallOutcome
  rfOnMessage : CallOutcome
  rfCallback : CallOutcome
  hasRun : Bool
  runOnMessage : CallOutcome
  runPos : CallOutcome
  hasStart : Bool
  startPos : CallOutcome
  startOnMessage : CallOutcome
  hasConnect : Bool
  hasListen : Bool
  connectCall : CallOutcome
  listenCall : CallOutcome
deriving DecidableEq

/-- Result of one method block of the probing code: a convention
returned normally (`ok`), the block fell through with `started = False`,
or an exception escaped the block (`escalate`). -/
inductive BlockResult : Type
  | ok (c : ProbeCall)
  | fallthrough
  | escalate (c : ProbeCall)
deriving DecidableEq

/-- The `run_forever` block (lines 298-313): positional, then
`on_message=`, then `callback=`; the first two fallbacks are guarded by
`except TypeError` (any other exception escapes), the innermost by
`except Exception` (everything is swallowed). -/
def rfBlock (b : RunBehavior) : BlockResult :=
  if b.hasRunForever then
    match b.rfPos with
    | .success => BlockResult.ok ProbeCall.rfPos
    | .otherError => BlockResult.escalate ProbeCall.rfPos
    | .typeError =>
      match b.rfOnMessage with
      | .success => BlockResult.ok ProbeCall.rfOnMessage
      | .otherError => BlockResult.escalate ProbeCall.rfOnMessage
      | .typeError =>
        match b.rfCallback with
        | .success => BlockResult.ok ProbeCall.rfCallback
        | _ => BlockResult.fallthrough
  else BlockResult.fallthrough

/-- The `run` block (lines 314-323): `on_message=` guarded by
`except TypeError`, then positional guarded by `except Exception`. -/
def runBlock (b : RunBehavior) : BlockResult :=
  if b.hasRun then
    match b.runOnMessage with
    | .success => BlockResult.ok ProbeCall.runOnMessage
    | .otherError => BlockResult.escalate ProbeCall.runOnMessage
    | .typeError =>
      match b.runPos with
      | .success => BlockResult.ok ProbeCall.runPos
      | _ => BlockResult.fallthrough
  else BlockResult.fallthrough

/-- The `start` block (lines 324-333): positional guarded by
`except TypeError`, then `on_message=` guarded by `except Exception`. -/
def startBlock (b : RunBehavior) : BlockResult :=
  if b.hasStart then
    match b.startPos with
    | .success => BlockResult.ok ProbeCall.startPos
    | .otherError => BlockResult.escalate ProbeCall.startPos
    | .typeError =>
      match b.startOnMessage with
      | .success => BlockResult.ok ProbeCall.startOnMessage
      | _ => BlockResult.fallthrough
  else BlockResult.fallthrough

/-- The `connect`/`listen` last resort (lines 335-341): both calls sit
under one `except Exception`, so every failure is swallowed. -/
def clBlock (b : RunBehavior) : BlockResult :=
  if b.hasConnect && b.hasListen then
    match b.connectCall with
    | .success =>
      match b.listenCall with
      | .success => BlockResult.ok ProbeCall.connectListen
      | _ => BlockResult.fallthrough
    | _ => BlockResult.fallthrough
  else BlockResult.fallthrough

/-- Outcome of the whole probing phase. -/
inductive ProbeResult : Type
  | started (c : ProbeCall)
  | notStarted
  | raised (c : ProbeCall)
deriving DecidableEq

/-- The probing phase (lines 297-341): the four blocks in order, each
entered only while `started` is still false; an escalating exception
bypasses the remaining blocks (it propagates out of the `try` at line
297, which only catches `KeyboardInterrupt`). -/
def probeRun (b : RunBehavior) : ProbeResult :=
  match rfBlock b with
  | .ok c => ProbeResult.started c
  | .escalate c => ProbeResult.raised c
  | .fallthrough =>
    match runBlock b with
    | .ok c => ProbeResult.started c
    | .escalate c => ProbeResult.raised c
    | .fallthrough =>
      match startBlock b with
      | .ok c => ProbeResult.started c
      | .escalate c => ProbeResult.raised c
      | .fallthrough =>
        match clBlock b with
        | .ok c => ProbeResult.started c
        | .escalate c => ProbeResult.raised c
        | .fallthrough => ProbeResult.notStarted

/-- Per-attempt behaviour of the external client. -/
structure AttemptBehavior where
  ctor : CtorBehavior
  run : RunBehavior
deriving DecidableEq

/-- What one iteration of the `while _running` loop does with a given
client behaviour. -/
inductive AttemptResult : Type
  | feedNone
  | ranOk
  | notStarted
  | raised (c : ProbeCall)
deriving DecidableEq

/-- One loop iteration up to its control-flow decision: a failed
instantiation leaves `feed = None` (line 285); otherwise the probing
phase either starts the feed (which later returns normally), falls
through, or lets an exception escape to the outer handler. -/
def attemptOutcome (b : AttemptBehavior) : AttemptResult :=
  if (instantiateFeed b.ctor).1 then
    match probeRun b.run with
    | .started _ => AttemptResult.ranOk
    | .notStarted => AttemptResult.notStarted
    | .raised c => AttemptResult.raised c
  else AttemptResult.feedNone

/-- `INITIAL_BACKOFF` (line 36). -/
def INITIAL_BACKOFF : ℕ := 1

/-- `MAX_BACKOFF` (line 37). -/
def MAX_BACKOFF : ℕ := 60

/-- How the reconnection loop ended (or whether it is still iterating). -/
inductive SupStatus : Type
  | running
  | returnedNoFeed
  | returnedNotStarted
deriving DecidableEq

/-- State of the `while _running` loop in `start_market_feed`:
the current backoff value, whether a `return` has been executed, the
backoff sleeps performed so far (line 361), and how many loop
iterations ran. -/
structure SupState where
  backoff : ℕ
  status : SupStatus
  sleeps : List ℕ
  attempts : ℕ
deriving DecidableEq

/-- One iteration of the loop body (lines 254-362).  `feed is None`
returns from the function (line 287); no working run signature returns
from the function (line 351); a normal return of the run method resets
the backoff (line 345; the fixed 1-second anti-tight-loop sleep of line
348 is not a backoff sleep); an escaping exception sleeps
`min(MAX_BACKOFF, backoff)` and doubles the backoff capped at
`MAX_BACKOFF` (lines 357-362).  After a `return` the state is
absorbing. -/
def supStep (st : SupState) (r : AttemptResult) : SupState :=
  match st.status with
  | .running =>
    match r with
    | .feedNone =>
      { st with attempts := st.attempts + 1, status := SupStatus.returnedNoFeed }
    | .notStarted =>
      { st with attempts := st.attempts + 1, status := SupStatus.returnedNotStarted }
    | .ranOk =>
      { st with attempts := st.attempts + 1, backoff := INITIAL_BACKOFF }
    | .raised _ =>
      { st with
        attempts := st.attempts + 1,
        sleeps := st.sleeps ++ [min MAX_BACKOFF st.backoff],
        backoff := min MAX_BACKOFF (if 0 < st.backoff then st.backoff * 2 else INITIAL_BACKOFF) }
  | _ => st

/-- Loop state at entry (line 253). -/
def initSup : SupState :=
  { backoff := INITIAL_BACKOFF, status := SupStatus.running, sleeps := [], attempts := 0 }

/-- Run the loop from a given state over a finite schedule of client
behaviours (the schedule ending models `_running` being cleared). -/
def superviseFrom (st : SupState) (bs : List AttemptBehavior) : SupState :=
  bs.foldl (fun s b => supStep s (attemptOutcome b)) st

/-- The whole reconnection loop of `start_market_feed`. -/
def runSupervisor (bs : List AttemptBehavior) : SupState :=
  superviseFrom initSup bs

/-- The process environment: the four credential variables (line 24-27).
`None` is an unset variable; an empty string is falsy like in Python. -/
structure Env where
  clientId : Option String
  accessToken : Option String
  telegramBotToken : Option String
  telegramChatId : Option String
deriving DecidableEq

/-- Truthiness of an optional environment string. -/
def present : Option String → Bool
  | some s => !s.isEmpty
  | Option.none => false

/-- How `start_market_feed` ends. -/
inductive StartResult : Type
  | credsMissing
  | discoveryFailed
  | loopEnded (final : SupState)
deriving DecidableEq

/-- `start_market_feed` (lines 228-364): the startup credential gate at
lines 229-231 (only `DHAN_CLIENT_ID` and `DHAN_ACCESS_TOKEN` are
examined), the discovery gate at lines 234-237 (`located` says whether
`locate_feed_class` found anything), then the reconnection loop. -/
def start_market_feed (env : Env) (located : Bool)
    (bs : List AttemptBehavior) : StartResult :=
  if !present env.clientId || !present env.accessToken then StartResult.credsMissing
  else if !located then StartResult.discoveryFailed
  else StartResult.loopEnded (runSupervisor bs)

/-- A constructor behaviour that accepts the first signature. -/
def ctorOk : CtorBehavior := { withVersion := CallOutcome.success, noVersion := CallOutcome.success }

/-- A feed instance exposing no run-style method at all. -/
def runNone : RunBehavior :=
  { hasRunForever := false, rfPos := CallOutcome.success, rfOnMessage := CallOutcome.success,
    rfCallback := CallOutcome.success, hasRun := false, runOnMessage := CallOutcome.success,
    runPos := CallOutcome.success, hasStart := false, startPos := CallOutcome.success,
    startOnMessage := CallOutcome.success, hasConnect := false, hasListen := false,
    connectCall := CallOutcome.success, listenCall := CallOutcome.success }

/-- A feed whose positional `run_forever` raises a non-TypeError. -/
def runRaise : RunBehavior :=
  { runNone with hasRunForever := true, rfPos := CallOutcome.otherError }

/-- A feed whose positional `run_forever` blocks and then returns. -/
def runGood : RunBehavior :=
  { runNone with hasRunForever := true, rfPos := CallOutcome.success }

/-- Attempt: instantiation works, no run method found. -/
def bNotStarted : AttemptBehavior := { ctor := ctorOk, run := runNone }

/-- Attempt: instantiation works, the run method raises. -/
def bRaised : AttemptBehavior := { ctor := ctorOk, run := runRaise }

/-- Attempt: instantiation fails outright (non-TypeError from the
constructor), so `feed` stays `None`. -/
def bNoFeed : AttemptBehavior :=
  { ctor := { withVersion := CallOutcome.otherError, noVersion := CallOutcome.success },
    run := runNone }

/-- Attempt: everything works and the blocking run call returns. -/
def bGood : AttemptBehavior := { ctor := ctorOk, run := runGood }

/-- A feed whose `run_forever` mismatches twice and then raises a real
error under `callback=`, while `run(on_message=)` works: the real error
lands in the innermost `except Exception`. -/
def runSwallow : RunBehavior :=
  { runNone with
      hasRunForever := true, rfPos := CallOutcome.typeError,
      rfOnMessage := CallOutcome.typeError, rfCallback := CallOutcome.otherError,
      hasRun := true, runOnMessage := CallOutcome.success }

/-- The notifier configuration of the deployed defaults: 60-second
cooldown, both Telegram credentials present. -/
def cfgTest : NotifierCfg := { interval := 60, credsPresent := true }

/-- Same cooldown with the Telegram credentials missing. -/
def cfgNoCreds : NotifierCfg := { interval := 60, credsPresent := false }

/-- A feed class rejecting both constructor signatures with
`TypeError`. -/
def ctorBothTypeError : CtorBehavior :=
  { withVersion := CallOutcome.typeError, noVersion := CallOutcome.typeError }

/-- A feed class rejecting the versioned signature with `TypeError` and
accepting the unversioned one. -/
def ctorVersionMismatch : CtorBehavior :=
  { withVersion := CallOutcome.typeError, noVersion := CallOutcome.success }

/-- An environment with the DHAN credentials set and both Telegram
credentials unset. -/
def envNoTelegram : Env :=
  { clientId := some ("client1"), accessToken := some ("token1"),
    telegramBotToken := Option.none, telegramChatId := Option.none }

/-- An environment missing the client identity. -/
def envNoClient : Env :=
  { clientId := Option.none, accessToken := some ("t"),
    telegramBotToken := some ("x"), telegramChatId := some ("y") }

lemma superviseFrom_append (st : SupState) (l1 l2 : List AttemptBehavior) :
    superviseFrom st (l1 ++ l2) = superviseFrom (superviseFrom st l1) l2 := by
  simp [superviseFrom, List.foldl_append]

/-- Once the loop has returned, later scheduled behaviours change
nothing. -/
lemma superviseFrom_absorb (st : SupState) (bs : List AttemptBehavior)
    (h : st.status ≠ SupStatus.running) : superviseFrom st bs = st := by
  induction bs generalizing st with
  | nil => rfl
  | cons b rest ih =>
    have hstep : supStep st (attemptOutcome b) = st := by
      unfold supStep
      cases hs : st.status with
      | running => exact absurd hs h
      | returnedNoFeed => rfl
      | returnedNotStarted => rfl
    show superviseFrom (supStep st (attemptOutcome b)) rest = st
    rw [hstep]
    exact ih st h

lemma attemptOutcome_bRaised :
    attemptOutcome bRaised = AttemptResult.raised ProbeCall.rfPos := rfl

/-- Invariant of the loop over a run of consecutive raising attempts:
after `n` of them the backoff is `min 60 (2 ^ n)` and the sleeps
performed are `min 60 (2 ^ i)` for `i < n`. -/
lemma raised_loop (n : ℕ) :
    superviseFrom initSup (List.replicate n bRaised) =
      { backoff := min MAX_BACKOFF (2 ^ n), status := SupStatus.running,
        sleeps := (List.range n).map (fun i => min MAX_BACKOFF (2 ^ i)),
        attempts := n } := by
  induction n with
  | zero => decide
  | succ n ih =>
    rw [List.replicate_succ', superviseFrom_append, ih]
    have hpos : 0 < min MAX_BACKOFF (2 ^ n) :=
      lt_min (by norm_num [MAX_BACKOFF]) (pow_pos (by norm_num) n)
    simp only [superviseFrom, List.foldl]
    rw [attemptOutcome_bRaised]
    simp only [supStep, if_pos hpos]
    rw [List.range_succ, List.map_append]
    have hmin : min MAX_BACKOFF (min MAX_BACKOFF (2 ^ n)) = min MAX_BACKOFF (2 ^ n) := by
      rw [← min_assoc, min_self]
    have hback : min MAX_BACKOFF (min MAX_BACKOFF (2 ^ n) * 2) = min MAX_BACKOFF (2 ^ (n + 1)) := by
      rw [pow_succ]
      rcases le_total (2 ^ n) MAX_BACKOFF with h | h
      · rw [min_eq_right h]
      · rw [min_eq_left h]
        have h2 : MAX_BACKOFF ≤ 2 ^ n * 2 := le_trans h (Nat.le_mul_of_pos_right _ (by norm_num))
        rw [min_eq_left (by norm_num [MAX_BACKOFF] : MAX_BACKOFF ≤ MAX_BACKOFF * 2),
          min_eq_left h2]
    simp [hmin, hback]

/-- An exception can only escalate out of the `run_forever` block from
the first two conventions; the `callback=` fallback swallows
everything. -/
lemma rfBlock_escalate_shape (b : RunBehavior) (c : ProbeCall)
    (h : rfBlock b = BlockResult.escalate c) :
    c = ProbeCall.rfPos ∨ c = ProbeCall.rfOnMessage := by
  unfold rfBlock at h
  cases hrf : b.hasRunForever <;> rw [hrf] at h
  · simp at h
  · simp only [if_true] at h
    cases h1 : b.rfPos <;> rw [h1] at h
    · simp at h
    · cases h2 : b.rfOnMessage <;> rw [h2] at h
      · simp at h
      · cases h3 : b.rfCallback <;> rw [h3] at h <;> simp at h
      · simp only [BlockResult.escalate.injEq] at h
        right; exact h.symm
    · simp only [BlockResult.escalate.injEq] at h
      left; exact h.symm

/-- An exception only escalates out of the `run` block from the
`on_message=` convention. -/
lemma runBlock_escalate_shape (b : RunBehavior) (c : ProbeCall)
    (h : runBlock b = BlockResult.escalate c) : c = ProbeCall.runOnMessage := by
  unfold runBlock at h
  cases hr : b.hasRun <;> rw [hr] at h
  · simp at h
  · simp only [if_true] at h
    cases h1 : b.runOnMessage <;> rw [h1] at h
    · simp at h
    · cases h2 : b.runPos <;> rw [h2] at h <;> simp at h
    · simp only [BlockResult.escalate.injEq] at h
      exact h.symm

/-- An exception only escalates out of the `start` block from the
positional convention. -/
lemma startBlock_escalate_shape (b : RunBehavior) (c : ProbeCall)
    (h : startBlock b = BlockResult.escalate c) : c = ProbeCall.startPos := by
  unfold startBlock at h
  cases hs : b.hasStart <;> rw [hs] at h
  · simp at h
  · simp only [if_true] at h
    cases h1 : b.startPos <;> rw [h1] at h
    · simp at h
    · cases h2 : b.startOnMessage <;> rw [h2] at h <;> simp at h
    · simp only [BlockResult.escalate.injEq] at h
      exact h.symm

/-- The `connect`/`listen` block never lets an exception escape. -/
lemma clBlock_no_escalate (b : RunBehavior) (c : ProbeCall) :
    clBlock b ≠ BlockResult.escalate c := by
  intro h
  unfold clBlock at h
  cases hc : b.hasConnect && b.hasListen <;> rw [hc] at h
  · simp at h
  · simp only [if_true] at h
    cases h1 : b.connectCall <;> rw [h1] at h
    · cases h2 : b.listenCall <;> rw [h2] at h <;> simp at h
    · simp at h
    · simp at h

/-- Any exception the probing phase surfaces comes from one of the four
conventions whose guard is `except TypeError`; the final convention of
each block and the connect/listen path swallow their exceptions. -/
lemma probeRun_raised_shape (b : RunBehavior) (c : ProbeCall)
    (h : probeRun b = ProbeResult.raised c) :
    c = ProbeCall.rfPos ∨ c = ProbeCall.rfOnMessage ∨
      c = ProbeCall.runOnMessage ∨ c = ProbeCall.startPos := by
  unfold probeRun at h
  cases h1 : rfBlock b <;> rw [h1] at h
  · simp at h
  · cases h2 : runBlock b <;> rw [h2] at h
    · simp at h
    · cases h3 : startBlock b <;> rw [h3] at h
      · simp at h
      · cases h4 : clBlock b <;> rw [h4] at h
        · simp at h
        · simp at h
        · exact absurd h4 (clBlock_no_escalate b _)
      · simp only [ProbeResult.raised.injEq] at h
        subst h
        right; right; right
        exact startBlock_escalate_shape b _ h3
    · simp only [ProbeResult.raised.injEq] at h
      subst h
      right; right; left
      exact runBlock_escalate_shape b _ h2
  · simp only [ProbeResult.raised.injEq] at h
    subst h
    rcases rfBlock_escalate_shape b _ h1 with h | h
    · left; exact h
    · right; left; exact h

/-- C1: every inbound event that resolves no instrument identifier or no
numeric price yields no canonical tick: no `latest_ltp` update and no
notification (the handler's result is `Option.none`), and — the handler
being a total function, mirroring its catch-all `except` — no exception
reaches the caller.  The conjuncts instantiate the three failure shapes
named by the claim: missing identifier, missing price, and a
non-numeric price string. -/
theorem spec_C1 :
    (∀ m : PyVal, truthy (finalSid m) = false ∨ finalLtp m = Option.none →
      market_feed_handler m = Option.none) ∧
    market_feed_handler (PyVal.dict [(("lastTradedPrice"), PyVal.num 5)]) = Option.none ∧
    market_feed_handler (PyVal.dict [(("securityId"), PyVal.str ("1333"))]) = Option.none ∧
    market_feed_handler (PyVal.dict [(("securityId"), PyVal.str ("1333")),
      (("lastTradedPrice"), PyVal.str ("abc"))]) = Option.none := by
  refine ⟨?_, by decide, by decide, by decide⟩
  intro m h
  unfold market_feed_handler
  rcases h with h | h
  · simp [h]
  · simp [h]

/-- Witness for C1 at a concrete malformed event (a non-numeric price
and no identifier). -/
theorem spec_C1_witness :
    market_feed_handler (PyVal.dict [(("ltp"), PyVal.str ("xyz"))]) = Option.none :=
  spec_C1.1 _ (Or.inl (by decide))

/-- C2: successive successful dispatches for one instrument are always
separated by at least the cooldown interval — at most one notification
per window — and the claim's concrete trace (relative times 0s, 10s,
59s, 61s against a 60s cooldown, here offset to a stream starting at
t = 1000) dispatches exactly at the first and last tick. -/
theorem spec_C2 :
    (∀ (cfg : NotifierCfg) (evs : List TickEvent) (sid : String),
      List.Chain' (fun a b : ℚ => a + cfg.interval ≤ b) (okTimes cfg [] sid evs)) ∧
    (runNotifier cfgTest []
      [{ sid := ("1333"), now := 1000, deliveryOk := true },
       { sid := ("1333"), now := 1010, deliveryOk := true },
       { sid := ("1333"), now := 1059, deliveryOk := true },
       { sid := ("1333"), now := 1061, deliveryOk := true }]).2
      = [SendOutcome.sentOk, SendOutcome.throttled, SendOutcome.throttled, SendOutcome.sentOk] := by
  constructor
  · intro cfg evs sid
    exact (okTimes_chain cfg sid evs []).tail
  · norm_num [cfgTest, runNotifier, send_telegram_message, lookupD, setKey]

/-- C3 counterexample: when every constructor call raises `TypeError`,
the versions actually attempted are `"2.0"` and then no version — not
the claimed order (unspecified, "1", "v1", "2.0", "v2"); in particular
"1", "v1" and "v2" are never tried and "2.0" comes first. -/
theorem spec_C3_cex :
    ((instantiateFeed ctorBothTypeError).2.map versionOf
      = [some ("2.0"), Option.none]) ∧
    [some ("2.0"), (Option.none : Option String)]
      ≠ [Option.none, some ("1"), some ("v1"), some ("2.0"), some ("v2")] := by
  decide

/-- C3 (amended): for every connection attempt the Constructor
Negotiator makes exactly one call with version "2.0" and, only when that
call raises a parameter mismatch, one further call with no version; no
other version candidates exist and no candidate is ever retried within
an attempt. -/
theorem spec_C3_amended :
    ∀ b : CtorBehavior,
      ((instantiateFeed b).2 = [CtorCall.withVersion20] ∧
        b.withVersion ≠ CallOutcome.typeError) ∨
      ((instantiateFeed b).2 = [CtorCall.withVersion20, CtorCall.plain] ∧
        b.withVersion = CallOutcome.typeError) := by
  intro b
  obtain ⟨w, nv⟩ := b
  cases w <;> cases nv <;> simp [instantiateFeed]

/-- Witness for C3 (amended): a `TypeError` from the versioned call is
followed by exactly one unversioned call. -/
theorem spec_C3_amended_witness :
    (instantiateFeed ctorVersionMismatch).2
      = [CtorCall.withVersion20, CtorCall.plain] := by
  rcases spec_C3_amended ctorVersionMismatch with ⟨h1, h2⟩ | ⟨h1, h2⟩
  · exact absurd rfl h2
  · exact h1

/-- C4 counterexample: with a first attempt in which no run/start
signature works and a second behaviour scheduled, the loop executes the
`return` at line 351 after one attempt: no backoff sleep happens and the
second attempt never runs — the claimed `Probing → Backoff → retry`
transition does not exist in the code. -/
theorem spec_C4_cex :
    runSupervisor [bNotStarted, bRaised]
      = { backoff := 1, status := SupStatus.returnedNotStarted, sleeps := [], attempts := 1 } := by
  decide

/-- C4 (amended): when no run-style method or calling convention
succeeds, `start_market_feed` returns immediately: the loop ends with no
backoff sleep, no change to the backoff value, and no further attempt,
whatever else is scheduled. -/
theorem spec_C4_amended :
    ∀ (st : SupState) (b : AttemptBehavior) (bs : List AttemptBehavior),
      st.status = SupStatus.running → attemptOutcome b = AttemptResult.notStarted →
      superviseFrom st (b :: bs)
        = { st with status := SupStatus.returnedNotStarted, attempts := st.attempts + 1 } := by
  intro st b bs h1 h2
  show superviseFrom (supStep st (attemptOutcome b)) bs = _
  rw [h2]
  have hstep : supStep st AttemptResult.notStarted
      = { st with status := SupStatus.returnedNotStarted, attempts := st.attempts + 1 } := by
    unfold supStep
    rw [h1]
  rw [hstep]
  exact superviseFrom_absorb _ bs (by simp)

/-- Witness for C4 (amended) at the initial loop state. -/
theorem spec_C4_amended_witness :
    superviseFrom initSup [bNotStarted]
      = { initSup with status := SupStatus.returnedNotStarted, attempts := initSup.attempts + 1 } :=
  spec_C4_amended initSup bNotStarted [] rfl rfl

/-- C5 counterexample: when instantiation fails entirely (`feed` stays
`None`) while another behaviour is scheduled, the loop executes the
`return` at line 287 after one attempt: no backoff sleep, no retry — the
claimed `Negotiating → Backoff → retry` transition does not exist in the
code (nor does any bare positional last-resort call). -/
theorem spec_C5_cex :
    runSupervisor [bNoFeed, bRaised]
      = { backoff := 1, status := SupStatus.returnedNoFeed, sleeps := [], attempts := 1 } := by
  decide

/-- C5 (amended): when every constructor signature fails and `feed` is
`None`, `start_market_feed` returns immediately: the loop ends with no
backoff sleep and no further attempt, whatever else is scheduled. -/
theorem spec_C5_amended :
    ∀ (st : SupState) (b : AttemptBehavior) (bs : List AttemptBehavior),
      st.status = SupStatus.running → attemptOutcome b = AttemptResult.feedNone →
      superviseFrom st (b :: bs)
        = { st with status := SupStatus.returnedNoFeed, attempts := st.attempts + 1 } := by
  intro st b bs h1 h2
  show superviseFrom (supStep st (attemptOutcome b)) bs = _
  rw [h2]
  have hstep : supStep st AttemptResult.feedNone
      = { st with status := SupStatus.returnedNoFeed, attempts := st.attempts + 1 } := by
    unfold supStep
    rw [h1]
  rw [hstep]
  exact superviseFrom_absorb _ bs (by simp)

/-- Witness for C5 (amended) at the initial loop state. -/
theorem spec_C5_amended_witness :
    superviseFrom initSup [bNoFeed]
      = { initSup with status := SupStatus.returnedNoFeed, attempts := initSup.attempts + 1 } :=
  spec_C5_amended initSup bNoFeed [] rfl rfl

/-- C6: over any run of consecutive failing (exception-raising)
attempts, the i-th backoff sleep is `min 60 (2 ^ i)` — that is 1, 2, 4,
8, 16, 32 and then 60 forever — doubling from the 1-second initial value
and capped at 60 seconds; instantiated at nine failures. -/
theorem spec_C6 :
    (∀ n : ℕ, (runSupervisor (List.replicate n bRaised)).sleeps
      = (List.range n).map (fun i => min MAX_BACKOFF (2 ^ i))) ∧
    (runSupervisor (List.replicate 9 bRaised)).sleeps
      = [1, 2, 4, 8, 16, 32, 60, 60, 60] := by
  constructor
  · intro n
    rw [runSupervisor, raised_loop]
  · decide

/-- C7 counterexample: a non-suppressed dispatch whose delivery fails
(outcome `sendFailed`: the POST was attempted and did not return 2xx)
leaves the ThrottleState untouched — the entry is not set to the
dispatch time, contradicting "set ... whether the delivery succeeds or
fails". -/
theorem spec_C7_cex :
    send_telegram_message cfgTest [] ("1333") 1000 false
      = ([], SendOutcome.sendFailed) := by
  norm_num [cfgTest, send_telegram_message, lookupD]

/-- C7 (amended): the ThrottleState entry is set to the dispatch time
exactly when the delivery succeeds (`resp.ok`, line 95); on a throttled
or credential-skipped call, and equally on a delivery failure (network
error or non-2xx response), the state is left unchanged — never written,
hence also never rolled back. -/
theorem spec_C7_amended :
    ∀ (cfg : NotifierCfg) (st : ThrottleState) (sid : String) (now : ℚ) (ok : Bool),
      ((send_telegram_message cfg st sid now ok).2 = SendOutcome.sentOk →
        (send_telegram_message cfg st sid now ok).1 = setKey st sid now) ∧
      ((send_telegram_message cfg st sid now ok).2 ≠ SendOutcome.sentOk →
        (send_telegram_message cfg st sid now ok).1 = st) := by
  intro cfg st sid now ok
  exact ⟨fun h => ((send_step_spec cfg st sid now ok).1 h).1,
    (send_step_spec cfg st sid now ok).2⟩

/-- Witness for C7 (amended): a successful dispatch records its time. -/
theorem spec_C7_amended_witness :
    (send_telegram_message cfgTest [] ("1333") 1000 true).1
      = setKey [] ("1333") 1000 :=
  (spec_C7_amended cfgTest [] ("1333") 1000 true).1
    (by norm_num [cfgTest, send_telegram_message, lookupD])

/-- C8 counterexample: `run_forever` raises `TypeError` positionally and
with `on_message=`, then raises a non-parameter-mismatch error with
`callback=`; the innermost `except Exception` (line 312) swallows that
error and the search moves on to `run`, which succeeds — the non-mismatch
condition is not surfaced as the attempt's outcome, contradicting the
claim that every such call is counted as invoked. -/
theorem spec_C8_cex :
    probeRun runSwallow = ProbeResult.started ProbeCall.runOnMessage ∧
    probeRun runSwallow ≠ ProbeResult.raised ProbeCall.rfCallback := by
  decide

/-- C8 (amended): a condition other than a parameter mismatch is
surfaced to the Supervisor only when it is raised by one of the
conventions guarded by `except TypeError` — `run_forever` positional,
`run_forever(on_message=)`, `run(on_message=)`, `start` positional; the
final convention of each block (`run_forever(callback=)`, `run`
positional, `start(on_message=)`) and the `connect`/`listen` path are
guarded by `except Exception`, which swallows any condition and drives
the search onward. -/
theorem spec_C8_amended :
    ∀ b : RunBehavior,
      (b.hasRunForever = true → b.rfPos = CallOutcome.otherError →
        probeRun b = ProbeResult.raised ProbeCall.rfPos) ∧
      (b.hasRunForever = true → b.rfPos = CallOutcome.typeError →
        b.rfOnMessage = CallOutcome.otherError →
        probeRun b = ProbeResult.raised ProbeCall.rfOnMessage) ∧
      (rfBlock b = BlockResult.fallthrough → b.hasRun = true →
        b.runOnMessage = CallOutcome.otherError →
        probeRun b = ProbeResult.raised ProbeCall.runOnMessage) ∧
      (rfBlock b = BlockResult.fallthrough → runBlock b = BlockResult.fallthrough →
        b.hasStart = true → b.startPos = CallOutcome.otherError →
        probeRun b = ProbeResult.raised ProbeCall.startPos) ∧
      (∀ c : ProbeCall, probeRun b = ProbeResult.raised c →
        c = ProbeCall.rfPos ∨ c = ProbeCall.rfOnMessage ∨
          c = ProbeCall.runOnMessage ∨ c = ProbeCall.startPos) := by
  intro b
  refine ⟨?_, ?_, ?_, ?_, probeRun_raised_shape b⟩
  · intro h1 h2
    have hrf : rfBlock b = BlockResult.escalate ProbeCall.rfPos := by
      simp [rfBlock, h1, h2]
    simp [probeRun, hrf]
  · intro h1 h2 h3
    have hrf : rfBlock b = BlockResult.escalate ProbeCall.rfOnMessage := by
      simp [rfBlock, h1, h2, h3]
    simp [probeRun, hrf]
  · intro h1 h2 h3
    have hrb : runBlock b = BlockResult.escalate ProbeCall.runOnMessage := by
      simp [runBlock, h2, h3]
    simp [probeRun, h1, hrb]
  · intro h1 h2 h3 h4
    have hsb : startBlock b = BlockResult.escalate ProbeCall.startPos := by
      simp [startBlock, h3, h4]
    simp [probeRun, h1, h2, hsb]

/-- Witness for C8 (amended): a non-mismatch error from the positional
`run_forever` call is surfaced. -/
theorem spec_C8_amended_witness :
    probeRun runRaise = ProbeResult.raised ProbeCall.rfPos :=
  (spec_C8_amended runRaise).1 rfl rfl

/-- C9 counterexample: with both DHAN credentials set but both
notification-endpoint credentials unset, `start_market_feed` passes the
startup gate and streams (one complete attempt runs); separately, a
dispatch under missing notification credentials is merely skipped at
send time (outcome `noCreds`, state unchanged) — the missing credentials
are not a startup-fatal error and the program does proceed to stream. -/
theorem spec_C9_cex :
    (start_market_feed envNoTelegram true [bGood]
      = StartResult.loopEnded { backoff := 1, status := SupStatus.running, sleeps := [], attempts := 1 }) ∧
    send_telegram_message cfgNoCreds [] ("1333") 1000 true
      = ([], SendOutcome.noCreds) := by
  constructor
  · decide
  · norm_num [cfgNoCreds, send_telegram_message, lookupD]

/-- C9 (amended): only the client identity and access secret are
startup-checked — absence of either ends `start_market_feed` at once with
a single report and no retry; the notification-endpoint credentials are
not examined at startup, so the program proceeds to stream without them,
and each dispatch attempt with them missing is skipped at send time with
the state unchanged and no exception. -/
theorem spec_C9_amended :
    ∀ (env : Env) (located : Bool) (bs : List AttemptBehavior),
      ((present env.clientId = false ∨ present env.accessToken = false) →
        start_market_feed env located bs = StartResult.credsMissing) ∧
      (present env.clientId = true → present env.accessToken = true → located = true →
        start_market_feed env located bs = StartResult.loopEnded (runSupervisor bs)) ∧
      (∀ (cfg : NotifierCfg) (st : ThrottleState) (sid : String) (now : ℚ) (ok : Bool),
        cfg.credsPresent = false →
          (send_telegram_message cfg st sid now ok).1 = st ∧
          ((send_telegram_message cfg st sid now ok).2 = SendOutcome.throttled ∨
            (send_telegram_message cfg st sid now ok).2 = SendOutcome.noCreds)) := by
  intro env located bs
  refine ⟨?_, ?_, ?_⟩
  · intro h
    unfold start_market_feed
    rcases h with h | h <;> simp [h]
  · intro h1 h2 h3
    unfold start_market_feed
    simp [h1, h2, h3]
  · intro cfg st sid now ok h
    by_cases g1 : now - lookupD st sid < cfg.interval
    · have hr : send_telegram_message cfg st sid now ok = (st, SendOutcome.throttled) := by
        unfold send_telegram_message
        rw [if_pos g1]
      rw [hr]
      exact ⟨rfl, Or.inl rfl⟩
    · have hr : send_telegram_message cfg st sid now ok = (st, SendOutcome.noCreds) := by
        unfold send_telegram_message
        rw [if_neg g1, if_pos h]
      rw [hr]
      exact ⟨rfl, Or.inr rfl⟩

/-- Witness for C9 (amended): a missing client identity is
startup-fatal. -/
theorem spec_C9_amended_witness :
    start_market_feed envNoClient true [] = StartResult.credsMissing :=
  (spec_C9_amended envNoClient true []).1 (Or.inl (by decide))

/-- C10 counterexample: an event whose only price field is the final
alias `last` holding the numeric value 0 is NOT dropped — the or-chain
returns its last operand unchecked and the subsequent test is
`is not None`, so a canonical tick with price 0.0 is emitted,
contradicting the claim that every event whose only price field holds 0
is dropped. -/
theorem spec_C10_cex :
    market_feed_handler (PyVal.dict [(("securityId"), PyVal.str ("1")),
      (("last"), PyVal.num 0)]) = some (("1"), 0) := by
  decide

/-- C10 (amended): truthiness chaining drops a 0 price arriving under
any alias except the chain's final operand — `lastTradedPrice`, `ltp` or
`last_price` alone with value 0 yield no tick — and drops every falsy
identifier (0 or "") under first or final alias alike, since the final
identifier test is truthiness; but a 0 price under the final alias
`last` survives the `is not None` test and emits a tick. -/
theorem spec_C10_amended :
    market_feed_handler (PyVal.dict [(("securityId"), PyVal.str ("1")),
      (("lastTradedPrice"), PyVal.num 0)]) = Option.none ∧
    market_feed_handler (PyVal.dict [(("securityId"), PyVal.str ("1")),
      (("ltp"), PyVal.num 0)]) = Option.none ∧
    market_feed_handler (PyVal.dict [(("securityId"), PyVal.str ("1")),
      (("last_price"), PyVal.num 0)]) = Option.none ∧
    market_feed_handler (PyVal.dict [(("securityId"), PyVal.num 0),
      (("lastTradedPrice"), PyVal.num 5)]) = Option.none ∧
    market_feed_handler (PyVal.dict [(("securityId"), PyVal.str ("")),
      (("lastTradedPrice"), PyVal.num 5)]) = Option.none ∧
    market_feed_handler (PyVal.dict [(("s"), PyVal.num 0),
      (("lastTradedPrice"), PyVal.num 5)]) = Option.none ∧
    market_feed_handler (PyVal.dict [(("s"), PyVal.str ("")),
      (("lastTradedPrice"), PyVal.num 5)]) = Option.none ∧
    market_feed_handler (PyVal.dict [(("securityId"), PyVal.str ("7")),
      (("last"), PyVal.num 0)]) = some (("7"), 0) := by
  decide

end DhanBot
